import Mathlib

/-!
Shallow embedding of the torii gRPC server core (Dl-Vv/dojo):
  - crates/torii/core/src/error.rs          (Error, ParseError)
  - crates/torii/grpc/src/server/mod.rs     (DojoWorld: metadata, model_schema,
                                             model_metadata, subscribe_entities,
                                             and the tonic World trait impl)
The subscription module (crates/torii/grpc/src/server/subscription.rs) is not
in the provided sources; where claims depend on it, its operations are
modelled from the spec and marked as such in their doc comments.

Machine integers are modelled as Nat (u32 packed/unpacked sizes, field
elements); rust Result is Except; the possibility of a panic (unwrap) is made
explicit with the RR type below.
-/

deriving instance DecidableEq for Except

namespace Dojo

/-- sqlx errors as they matter to this core: `RowNotFound` from a `fetch_one`
on an empty result set, and any other database failure carrying a message. -/
inductive SqlError where
  | RowNotFound : SqlError
  | Other (msg : String) : SqlError
deriving DecidableEq, Repr

/-- Display string of a sqlx error (`Error::Sql` is `#[error(transparent)]`).
The `RowNotFound` text is the message sqlx prints for that variant. -/
def SqlError.toMessage : SqlError → String
  | .RowNotFound => "no rows returned by a query that expected to return at least one row"
  | .Other msg => msg

/-- torii_core::error::ParseError. The underlying starknet error values are
embedded as their display strings. -/
inductive ParseError where
  | FromStr (msg : String) : ParseError
  | CairoShortStringToFelt (msg : String) : ParseError
  | FromByteSliceError (msg : String) : ParseError
deriving DecidableEq, Repr

/-- Display string of a ParseError (all three variants are transparent). -/
def ParseError.toMessage : ParseError → String
  | .FromStr m => m
  | .CairoShortStringToFelt m => m
  | .FromByteSliceError m => m

/-- torii_core::error::Error. -/
inductive Error where
  | Parse (p : ParseError) : Error
  | Sql (e : SqlError) : Error
  | UnsupportedQuery : Error
deriving DecidableEq, Repr

/-- Display of `Error` via thiserror: `Parse` is prefixed "parsing error: ",
`Sql` is transparent, `UnsupportedQuery` is "unsupported query clause". -/
def Error.toMessage : Error → String
  | .Parse p => "parsing error: " ++ p.toMessage
  | .Sql e => e.toMessage
  | .UnsupportedQuery => "unsupported query clause"

/-- tonic status codes used at this RPC boundary. -/
inductive StatusCode where
  | NotFound : StatusCode
  | Internal : StatusCode
deriving DecidableEq, Repr

/-- A tonic Status: a code plus a human-readable message. -/
structure Status where
  code : StatusCode
  message : String
deriving DecidableEq, Repr

/-- tonic Status::not_found. -/
def Status.not_found (m : String) : Status := ⟨.NotFound, m⟩

/-- tonic Status::internal. -/
def Status.internal (m : String) : Status := ⟨.Internal, m⟩

/-- Result of running a piece of rust code that can return `Ok`, return
`Err`, or panic (an `unwrap` on a failing value). -/
inductive RR (ε : Type) (α : Type) where
  | ok (a : α) : RR ε α
  | err (e : ε) : RR ε α
  | panic (msg : String) : RR ε α
deriving DecidableEq, Repr

/-- Sequencing of panic-aware results (the rust `?` operator, with panics
propagating). -/
def RR.bind {ε α β : Type} : RR ε α → (α → RR ε β) → RR ε β
  | .ok a, f => f a
  | .err e, _ => .err e
  | .panic m, _ => .panic m

/-- Lift a rust `Result` into a panic-aware result. -/
def RR.ofExcept {ε α : Type} : Except ε α → RR ε α
  | .ok a => .ok a
  | .error e => .err e

/-- Rust `Option::unwrap`: panics with a message when the value is absent. -/
def RR.unwrapOpt {ε α : Type} (msg : String) : Option α → RR ε α
  | some a => .ok a
  | none => .panic msg

/-- Whether the computation returned `Ok`. -/
def RR.isOk {ε α : Type} : RR ε α → Bool
  | .ok _ => true
  | _ => false

/-- Map the error of a panic-aware result (rust `map_err`). -/
def RR.mapErr {ε ε' α : Type} (f : ε → ε') : RR ε α → RR ε' α
  | .ok a => .ok a
  | .err e => .err (f e)
  | .panic m => .panic m

/-! ## Storage rows (the sqlite tables the server queries) -/

/-- A row of the `worlds` table as selected by `metadata`:
world_address, world_class_hash, executor_address, executor_class_hash. -/
structure WorldRow where
  id : String
  world_address : String
  world_class_hash : String
  executor_address : String
  executor_class_hash : String
deriving DecidableEq, Repr

/-- A row of the `models` table as selected by `metadata`/`model_metadata`:
name, class_hash, packed_size, unpacked_size, layout (a hex string). -/
structure ModelRow where
  id : String
  name : String
  class_hash : String
  packed_size : Nat
  unpacked_size : Nat
  layout : String
deriving DecidableEq, Repr

/-- A row of the `model_members` table as selected by `model_schema`. -/
structure SqlModelMember where
  id : String
  model_idx : Nat
  member_idx : Nat
  name : String
  ty : String
  type_enum : String
  enum_options : String
  key : Bool
deriving DecidableEq, Repr

/-- The sqlite pool: the tables this core queries, plus a fault knob — when
`fail` is `some msg` every query fails with a non-RowNotFound database error,
modelling connection-level storage failures. -/
structure Storage where
  worlds : List WorldRow
  models : List ModelRow
  model_members : List (String × SqlModelMember)
  fail : Option String
deriving DecidableEq, Repr

/-- sqlx `fetch_one`: the first row of the result set, or `RowNotFound` when the
result set is empty. -/
def fetchOne {α : Type} : List α → Except SqlError α
  | [] => .error .RowNotFound
  | r :: _ => .ok r

/-- Query `SELECT ... FROM worlds WHERE id = ?` with `fetch_one`. -/
def Storage.queryWorld (st : Storage) (id : String) : Except SqlError WorldRow :=
  match st.fail with
  | some m => .error (.Other m)
  | none => fetchOne (st.worlds.filter (fun r => r.id = id))

/-- Query `SELECT ... FROM models` with `fetch_all`. -/
def Storage.queryModelsAll (st : Storage) : Except SqlError (List ModelRow) :=
  match st.fail with
  | some m => .error (.Other m)
  | none => .ok st.models

/-- Query `SELECT ... FROM models WHERE id = ?` with `fetch_one`. -/
def Storage.queryModelById (st : Storage) (id : String) : Except SqlError ModelRow :=
  match st.fail with
  | some m => .error (.Other m)
  | none => fetchOne (st.models.filter (fun r => r.id = id))

/-- Query `SELECT ... FROM model_members WHERE model_id = ? ORDER BY ...` with
`fetch_all`. -/
def Storage.queryModelMembers (st : Storage) (model : String) :
    Except SqlError (List SqlModelMember) :=
  match st.fail with
  | some m => .error (.Other m)
  | none => .ok ((st.model_members.filter (fun p => p.1 = model)).map (fun p => p.2))

/-! ## Parsing and encoding helpers from starknet / hex -/

/-- The Stark field prime. -/
def FIELD_PRIME : Nat :=
  0x800000000000011000000000000000000000000000000000000000000000001

/-- starknet cairo_short_string_to_felt: fails when the string is longer
than 31 characters or contains a non-ASCII character; otherwise the felt is
the big-endian byte interpretation of the ASCII bytes. -/
def cairo_short_string_to_felt (s : String) : Except String Nat :=
  if s.toList.length > 31 then .error "StringTooLong"
  else if s.toList.all (fun c => c.toNat < 128) then
    .ok (s.toList.foldl (fun acc c => acc * 256 + c.toNat) 0)
  else .error "NonAsciiCharacter"

/-- starknet FieldElement::from_byte_slice_be: fails when the slice is longer
than 32 bytes or the big-endian value is not below the field prime. -/
def felt_from_byte_slice_be (bs : List Nat) : Except String Nat :=
  if bs.length > 32 then .error "InvalidLength"
  else
    let v := bs.foldl (fun acc b => acc * 256 + b % 256) 0
    if v < FIELD_PRIME then .ok v else .error "OutOfRange"

/-- Value of one hex digit. -/
def hexVal (c : Char) : Option Nat :=
  if c.toNat ≥ 48 ∧ c.toNat ≤ 57 then some (c.toNat - 48)
  else if c.toNat ≥ 97 ∧ c.toNat ≤ 102 then some (c.toNat - 87)
  else if c.toNat ≥ 65 ∧ c.toNat ≤ 70 then some (c.toNat - 55)
  else none

/-- hex::decode on a list of characters: pairs of hex digits to bytes; fails
on an odd-length input or any non-hex character. -/
def hexDecodeList : List Char → Option (List Nat)
  | [] => some []
  | [_] => none
  | c1 :: c2 :: rest => do
    let h ← hexVal c1
    let l ← hexVal c2
    let tail ← hexDecodeList rest
    pure ((h * 16 + l) :: tail)

/-- hex::decode of a layout column. -/
def hexDecode (s : String) : Option (List Nat) := hexDecodeList s.toList

/-- Rust format specifier `{:#x}`: 0x-prefixed lowercase hex, used to key the
`worlds` table by the world address field element. -/
def formatHexId (n : Nat) : String :=
  "0x" ++ (Nat.toDigits 16 n).asString

/-! ## Protobuf wire types (protos::types) -/

/-- protos::types::ModelMetadata: the wire response of `model_metadata` and
an element of the `models` list of a world metadata response. `layout` is the
hex-decoded byte vector, `schema` the JSON serialization of the parsed type. -/
structure ProtoModelMetadata where
  name : String
  class_hash : String
  packed_size : Nat
  unpacked_size : Nat
  layout : List Nat
  schema : List Nat
deriving DecidableEq, Repr

/-- protos::types::WorldMetadata: the wire response of `world_metadata`. -/
structure ProtoWorldMetadata where
  world_address : String
  world_class_hash : String
  executor_address : String
  executor_class_hash : String
  models : List ProtoModelMetadata
deriving DecidableEq, Repr

/-- A key in a wire-level keys clause: raw big-endian bytes, converted to a
field element by `TryInto`. -/
def ProtoKey : Type := List Nat
deriving instance DecidableEq, Repr for ProtoKey

/-- protos keys clause: a model string and a sequence of byte-encoded keys. -/
structure ProtoKeysClause where
  model : String
  keys : List ProtoKey
deriving DecidableEq, Repr

/-- protos::types::clause::ClauseType. `Keys` is the one the server accepts;
the other clause kinds of the wire format (not under src/, named here from
the spec's error taxonomy of clause types other than a keys-clause) all fall
into the wildcard arm of the server's match. -/
inductive ClauseType where
  | Keys (c : ProtoKeysClause) : ClauseType
  | Attribute : ClauseType
  | Composite : ClauseType
deriving DecidableEq, Repr

/-- protos::types::Clause: an optional oneof clause_type. -/
structure Clause where
  clause_type : Option ClauseType
deriving DecidableEq, Repr

/-- protos::types::EntityQuery: a model name and an optional clause. -/
structure EntityQuery where
  model : String
  clause : Option Clause
deriving DecidableEq, Repr

/-- dojo_types::schema::KeysClause after conversion: keys are field
elements. -/
structure KeysClause where
  model : String
  keys : List Nat
deriving DecidableEq, Repr

/-- Conversion `TryInto<KeysClause>` for the wire keys clause: convert every key with
FieldElement::from_byte_slice_be, failing on the first bad key. -/
def keysClauseTryInto (c : ProtoKeysClause) : Except String KeysClause :=
  match c.keys.mapM felt_from_byte_slice_be with
  | .ok ks => .ok ⟨c.model, ks⟩
  | .error e => .error e

/-! ## Subscription registry (server/subscription.rs)

The subscription module itself is not under src/; the structures below that
the visible server code constructs (`SubscribeRequest`, its
`ModelMetadata`) are taken from their use sites in mod.rs, and the registry
operations (`add_subscriber`, `dispatch`) are modelled from the spec. -/

/-- subscription::ModelMetadata as built by `subscribe_entities`: the felt
encoding of the model name and the model's packed size. -/
structure SubModelMetadata where
  name : Nat
  packed_size : Nat
deriving DecidableEq, Repr

/-- subscription::SubscribeRequest as built by `subscribe_entities`: the key
filter and the model metadata. -/
structure SubscribeRequest where
  keys : List Nat
  model : SubModelMetadata
deriving DecidableEq, Repr

/-- Modelled from the spec: a registered subscriber of the Subscription
Registry (subscription.rs is not under src/) — an opaque unique id and the
stored subscription entries; the outbound channel is represented by the
dispatch output below. -/
structure Subscriber where
  id : Nat
  entries : List SubscribeRequest
deriving DecidableEq, Repr

/-- Modelled from the spec: the in-memory table of active subscribers
(subscription::SubscriberManager, not under src/), with a fresh-id counter
realizing the spec's unique-id allocation. -/
structure SubscriberManager where
  subscribers : List Subscriber
  next_id : Nat
deriving DecidableEq, Repr

/-- Modelled from the spec: `add_subscriber` allocates a fresh unique id,
stores the request batch under it and hands the receive side (here: the id)
back to the caller; it never fails. -/
def SubscriberManager.add_subscriber (m : SubscriberManager)
    (reqs : List SubscribeRequest) : Nat × SubscriberManager :=
  (m.next_id, ⟨m.subscribers ++ [⟨m.next_id, reqs⟩], m.next_id + 1⟩)

/-- A notification pushed to matching subscribers: the model identifier, the
entity key and the encoded payload. -/
structure Notification where
  model : Nat
  entity_key : List Nat
  payload : List Nat
deriving DecidableEq, Repr

/-- Modelled from the spec (I3, §4.1, §9): one stored entry matches a change
when the model names agree and the key filter is empty or equals the entity
key exactly. -/
def entryMatches (e : SubscribeRequest) (model : Nat) (key : List Nat) : Bool :=
  e.model.name = model && (e.keys.isEmpty || e.keys = key)

/-- Modelled from the spec: `dispatch` scans the table and enqueues the
encoded notification to every subscriber one of whose stored entries matches;
the result lists the (subscriber id, notification) deliveries. -/
def SubscriberManager.dispatch (m : SubscriberManager) (model : Nat)
    (key : List Nat) (payload : List Nat) : List (Nat × Notification) :=
  m.subscribers.filterMap (fun s =>
    if s.entries.any (fun e => entryMatches e model key) then
      some (s.id, ⟨model, key, payload⟩)
    else none)

/-! ## DojoWorld (server/mod.rs) -/

/-- The server state the visible methods read: the world address and the
sqlite pool. The subscriber manager is passed explicitly to the operations
that use it. -/
structure DojoWorld where
  world_address : Nat
  pool : Storage
deriving DecidableEq, Repr

/-- DojoWorld::model_schema: fetch the ordered member rows of a model and
parse them. parse_sql_model_members (torii_core::model, not under src/)
is infallible in the source signature; its output is kept abstract as the
fetched member list, which no claim inspects. -/
def DojoWorld.model_schema (w : DojoWorld) (model : String) :
    Except SqlError (List SqlModelMember) :=
  w.pool.queryModelMembers model

/-- serde_json::to_vec of a parsed schema. Serialization of the schema type
is total in the source (a plain data enum); no claim inspects the bytes, so
the encoding is abstracted as a length-indexed placeholder. -/
def serdeJsonToVec (schema : List SqlModelMember) : List Nat :=
  schema.map (fun _ => 0)

/-- The panic message of `Result::unwrap` on an `Err` value. -/
def unwrapErrMsg : String := "called Result::unwrap() on an Err value"

/-- One iteration of the model loop inside `metadata`: fetch and parse the
model's schema, hex-decode its layout with `.unwrap()`, and append the built
ProtoModelMetadata. -/
def DojoWorld.metadataStep (w : DojoWorld) (acc : RR Error (List ProtoModelMetadata))
    (model : ModelRow) : RR Error (List ProtoModelMetadata) :=
  RR.bind acc (fun built =>
  RR.bind (RR.ofExcept ((w.model_schema model.name).mapError Error.Sql))
    (fun schema =>
  RR.bind (RR.unwrapOpt unwrapErrMsg (hexDecode model.layout))
    (fun layout =>
  RR.ok (built ++ [ProtoModelMetadata.mk model.name model.class_hash
    model.packed_size model.unpacked_size layout (serdeJsonToVec schema)]))))

/-- The model loop inside `metadata` over the fetched model rows. -/
def DojoWorld.metadataLoop (w : DojoWorld) (acc : RR Error (List ProtoModelMetadata))
    (models : List ModelRow) : RR Error (List ProtoModelMetadata) :=
  models.foldl w.metadataStep acc

/-- DojoWorld::metadata: fetch the world row keyed by the formatted world
address, fetch all model rows, and for each build a ProtoModelMetadata; the
layout column is hex-decoded with `.unwrap()` (a panic on malformed data). -/
def DojoWorld.metadata (w : DojoWorld) : RR Error ProtoWorldMetadata :=
  RR.bind (RR.ofExcept ((w.pool.queryWorld (formatHexId w.world_address)).mapError Error.Sql))
    (fun world =>
  RR.bind (RR.ofExcept ((w.pool.queryModelsAll).mapError Error.Sql))
    (fun models =>
  RR.bind (w.metadataLoop (RR.ok []) models)
    (fun models_metadata =>
  RR.ok ⟨world.world_address, world.world_class_hash, world.executor_address,
    world.executor_class_hash, models_metadata⟩)))

/-- DojoWorld::model_metadata: fetch the model row by id, fetch and parse its
schema, hex-decode the layout with `.unwrap()`, and return the wire
metadata. -/
def DojoWorld.model_metadata (w : DojoWorld) (model : String) :
    RR Error ProtoModelMetadata :=
  RR.bind (RR.ofExcept ((w.pool.queryModelById model).mapError Error.Sql))
    (fun row =>
  RR.bind (RR.ofExcept ((w.model_schema model).mapError Error.Sql))
    (fun schema =>
  RR.bind (RR.unwrapOpt unwrapErrMsg (hexDecode row.layout))
    (fun layout =>
  RR.ok ⟨row.name, row.class_hash, row.packed_size, row.unpacked_size,
    layout, serdeJsonToVec schema⟩)))

/-- The body of one iteration of the `subscribe_entities` query loop:
extract the keys clause (clause absent, clause_type absent or a non-keys
clause are all UnsupportedQuery), convert it, resolve the model name to a
felt, fetch the model metadata, and build the SubscribeRequest. -/
def buildRequest (w : DojoWorld) (query : EntityQuery) : RR Error SubscribeRequest :=
  RR.bind (RR.ofExcept (do
    let cl ← (query.clause.elim (Except.error Error.UnsupportedQuery) Except.ok)
    let ct ← (cl.clause_type.elim (Except.error Error.UnsupportedQuery) Except.ok)
    match ct with
    | .Keys c => Except.ok c
    | _ => Except.error Error.UnsupportedQuery))
    (fun protoClause =>
  RR.bind (RR.ofExcept ((keysClauseTryInto protoClause).mapError
      (fun e => Error.Parse (ParseError.FromByteSliceError e))))
    (fun clause =>
  RR.bind (RR.ofExcept ((cairo_short_string_to_felt query.model).mapError
      (fun e => Error.Parse (ParseError.CairoShortStringToFelt e))))
    (fun model =>
  RR.bind (w.model_metadata query.model)
    (fun md =>
  RR.ok ⟨clause.keys, ⟨model, md.packed_size⟩⟩))))

/-- The `subscribe_entities` query loop: build one SubscribeRequest per
query in order, stopping at the first failure. -/
def buildAll (w : DojoWorld) : List EntityQuery → RR Error (List SubscribeRequest)
  | [] => RR.ok []
  | q :: rest =>
    RR.bind (buildRequest w q) (fun r =>
    RR.bind (buildAll w rest) (fun rs =>
    RR.ok (r :: rs)))

/-- DojoWorld::subscribe_entities: build the full batch of SubscribeRequests,
then submit it to the registry in a single add_subscriber call; any failure
returns before the registry is touched. Returns the receiver (here: the
subscriber id) and the registry state after the call. -/
def DojoWorld.subscribe_entities (w : DojoWorld) (sm : SubscriberManager)
    (queries : List EntityQuery) : RR Error Nat × SubscriberManager :=
  match buildAll w queries with
  | .ok subs =>
    let res := sm.add_subscriber subs
    (.ok res.1, res.2)
  | .err e => (.err e, sm)
  | .panic m => (.panic m, sm)

/-! ## The tonic World service impl (RPC boundary) -/

/-- protos::world::MetadataResponse. -/
structure MetadataResponse where
  metadata : Option ProtoWorldMetadata
deriving DecidableEq, Repr

/-- The world_metadata RPC handler: call `metadata` and map
`Error::Sql(RowNotFound)` to a not-found status with message "World not
found" and every other error to an internal status with the error's display
text. -/
def DojoWorld.world_metadata (w : DojoWorld) : RR Status MetadataResponse :=
  (w.metadata.mapErr (fun e =>
    match e with
    | .Sql .RowNotFound => Status.not_found "World not found"
    | e => Status.internal e.toMessage)).bind
  (fun metadata => .ok ⟨some metadata⟩)

/-- Modelled from the spec: the per-model metadata RPC handler is not under
src/ (only the inner `model_metadata` method is); per §4.3 it translates the
accessor's row-not-found signal to a not-found error and any other storage
failure to an internal error, each with a human-readable message. -/
def DojoWorld.model_metadata_rpc (w : DojoWorld) (model : String) :
    RR Status ProtoModelMetadata :=
  (w.model_metadata model).mapErr (fun e =>
    match e with
    | .Sql .RowNotFound => Status.not_found "Model not found"
    | e => Status.internal e.toMessage)

/-- The subscribe_entities RPC handler: call the inner method and map every
error to an internal status carrying the error's display text; on success
wrap the receiver into the response stream. -/
def DojoWorld.subscribe_entities_rpc (w : DojoWorld) (sm : SubscriberManager)
    (queries : List EntityQuery) : RR Status Nat × SubscriberManager :=
  let res := w.subscribe_entities sm queries
  (res.1.mapErr (fun e => Status.internal e.toMessage), res.2)

/-- The full server state reachable from an RPC handler: the world handle
(address and pool) and the shared subscription registry. -/
structure ServerState where
  world : DojoWorld
  registry : SubscriberManager
deriving DecidableEq, Repr

/-- The world_metadata handler as a transformer of the full server state:
its body reads only through the pool and never references the registry. -/
def world_metadata_call (s : ServerState) : RR Status MetadataResponse × ServerState :=
  (s.world.world_metadata, s)

/-- The per-model metadata handler as a transformer of the full server
state: its body reads only through the pool and never references the
registry. -/
def model_metadata_call (s : ServerState) (model : String) :
    RR Status ProtoModelMetadata × ServerState :=
  (s.world.model_metadata_rpc model, s)

/-! ## Concrete fixtures used by the witness theorems -/

/-- A stored model row with a well-formed hex layout. -/
def exModelRow : ModelRow :=
  ⟨"Position", "Position", "0x2e2c", 4, 6, "0a0b"⟩

/-- A stored model row whose layout column is not valid hex. -/
def badModelRow : ModelRow :=
  ⟨"Broken", "Broken", "0x1111", 2, 3, "zz"⟩

/-- A stored world row for world id 0x1. -/
def exWorldRow : WorldRow :=
  ⟨"0x1", "0x1", "0x2", "0x3", "0x4"⟩

/-- A healthy storage: one world row, one well-formed model row. -/
def exStorage : Storage := ⟨[exWorldRow], [exModelRow], [], none⟩

/-- A storage whose single model row has a malformed layout column. -/
def badStorage : Storage := ⟨[exWorldRow], [badModelRow], [], none⟩

/-- An empty storage (no rows at all). -/
def emptyStorage : Storage := ⟨[], [], [], none⟩

/-- A storage in which every query fails with a connection-level error. -/
def downStorage : Storage := ⟨[], [], [], some "connection refused"⟩

/-- The server over the healthy storage. -/
def exWorld : DojoWorld := ⟨1, exStorage⟩

/-- The server over the malformed-layout storage. -/
def badWorld : DojoWorld := ⟨1, badStorage⟩

/-- The server over the empty storage. -/
def emptyWorld : DojoWorld := ⟨1, emptyStorage⟩

/-- The server over the failing storage. -/
def downWorld : DojoWorld := ⟨1, downStorage⟩

/-- An empty subscription registry. -/
def exSM : SubscriberManager := ⟨[], 0⟩

/-- A well-formed keys-clause query for model "Position" with byte-encoded
keys 0x1 and 0x2. -/
def exQuery : EntityQuery :=
  ⟨"Position", some ⟨some (.Keys ⟨"Position", [[1], [2]]⟩)⟩⟩

/-- The SubscribeRequest that `subscribe_entities` builds from `exQuery`
over `exStorage` (the felt is the big-endian ASCII of "Position"). -/
def exSub : SubscribeRequest := ⟨[1, 2], ⟨5795978142210944878, 4⟩⟩

/-- A registered subscriber holding the `exSub` entry. -/
def exSub1 : Subscriber := ⟨0, [exSub]⟩

/-- A registry with one registered subscriber. -/
def exSM1 : SubscriberManager := ⟨[exSub1], 1⟩

/-- A well-formed keys-clause query for a model that has no row in
storage. -/
def missQuery : EntityQuery :=
  ⟨"Nope", some ⟨some (.Keys ⟨"Nope", [[1]]⟩)⟩⟩

/-! ## Helper lemmas -/

/-- Inversion of a successful panic-aware bind. -/
theorem RR.bind_ok_inv {ε α β : Type} {x : RR ε α} {f : α → RR ε β} {b : β}
    (h : RR.bind x f = .ok b) : ∃ a, x = .ok a ∧ f a = .ok b := by
  cases x with
  | ok a => exact ⟨a, rfl, h⟩
  | err e => simp [RR.bind] at h
  | panic m => simp [RR.bind] at h

/-- Inversion of a successful lifted rust Result. -/
theorem RR.ofExcept_ok_inv {ε α : Type} {x : Except ε α} {a : α}
    (h : RR.ofExcept x = .ok a) : x = .ok a := by
  cases x with
  | ok b => cases h; rfl
  | error e => simp [RR.ofExcept] at h

/-- Inversion of a successful mapError. -/
theorem Except.mapError_ok_inv {ε ε' α : Type} {f : ε → ε'} {x : Except ε α} {a : α}
    (h : x.mapError f = .ok a) : x = .ok a := by
  cases x with
  | ok b => cases h; rfl
  | error e => simp [Except.mapError] at h

/-- A query whose `queryModelById` succeeds comes from a non-failing pool. -/
theorem queryModelById_ok_fail_none {st : Storage} {model : String} {row : ModelRow}
    (h : st.queryModelById model = .ok row) : st.fail = none := by
  cases hf : st.fail with
  | none => rfl
  | some m => rw [Storage.queryModelById, hf] at h; cases h

/-! ## Claim theorems -/

/-- C2: for the metadata operations (world metadata and per-model metadata),
a requested world or model row absent from storage yields an RPC not-found
status, and any other storage failure yields an internal status whose
message is the failure's descriptive text. -/
theorem C2_metadata_status_mapping (w : DojoWorld) (model : String) :
    (w.pool.fail = none →
      w.pool.worlds.filter (fun r => r.id = formatHexId w.world_address) = [] →
      w.world_metadata = .err (Status.not_found "World not found")) ∧
    (∀ msg, w.pool.fail = some msg →
      w.world_metadata = .err (Status.internal msg)) ∧
    (w.pool.fail = none → w.pool.models.filter (fun r => r.id = model) = [] →
      w.model_metadata_rpc model = .err (Status.not_found "Model not found")) ∧
    (∀ msg, w.pool.fail = some msg →
      w.model_metadata_rpc model = .err (Status.internal msg)) := by
  refine ⟨?_, ?_, ?_, ?_⟩
  · intro hf he
    simp [DojoWorld.world_metadata, DojoWorld.metadata, Storage.queryWorld, hf, he,
      fetchOne, Except.mapError, RR.ofExcept, RR.bind, RR.mapErr]
  · intro msg hf
    simp [DojoWorld.world_metadata, DojoWorld.metadata, Storage.queryWorld, hf,
      Except.mapError, RR.ofExcept, RR.bind, RR.mapErr, Error.toMessage,
      SqlError.toMessage, Status.internal]
  · intro hf he
    simp [DojoWorld.model_metadata_rpc, DojoWorld.model_metadata,
      Storage.queryModelById, hf, he, fetchOne, Except.mapError, RR.ofExcept,
      RR.bind, RR.mapErr]
  · intro msg hf
    simp [DojoWorld.model_metadata_rpc, DojoWorld.model_metadata,
      Storage.queryModelById, hf, Except.mapError, RR.ofExcept, RR.bind,
      RR.mapErr, Error.toMessage, SqlError.toMessage, Status.internal]

/-- C2 witness: the mapping evaluated on an empty storage (not-found cases)
and a failing storage (internal cases). -/
theorem C2_metadata_status_mapping_witness :
    emptyWorld.world_metadata = .err (Status.not_found "World not found") ∧
    downWorld.world_metadata = .err (Status.internal "connection refused") ∧
    emptyWorld.model_metadata_rpc "Position" = .err (Status.not_found "Model not found") ∧
    downWorld.model_metadata_rpc "Position" = .err (Status.internal "connection refused") :=
  ⟨(C2_metadata_status_mapping emptyWorld "Position").1 rfl rfl,
   (C2_metadata_status_mapping downWorld "Position").2.1 "connection refused" rfl,
   (C2_metadata_status_mapping emptyWorld "Position").2.2.1 rfl rfl,
   (C2_metadata_status_mapping downWorld "Position").2.2.2 "connection refused" rfl⟩

/-- C5: for a model id present in storage (with a well-formed layout),
`model_metadata` succeeds and its packed_size and unpacked_size are exactly
the stored row's values, with name, class_hash and decoded layout likewise
passed through unmodified. -/
theorem C5_model_metadata_passthrough (w : DojoWorld) (model : String)
    (row : ModelRow) (bytes : List Nat)
    (hrow : w.pool.queryModelById model = .ok row)
    (hhex : hexDecode row.layout = some bytes) :
    ∃ resp, w.model_metadata model = .ok resp ∧
      resp.packed_size = row.packed_size ∧
      resp.unpacked_size = row.unpacked_size ∧
      resp.name = row.name ∧ resp.class_hash = row.class_hash ∧
      resp.layout = bytes := by
  have hf := queryModelById_ok_fail_none hrow
  refine ⟨⟨row.name, row.class_hash, row.packed_size, row.unpacked_size, bytes,
    serdeJsonToVec ((w.pool.model_members.filter (fun p => p.1 = model)).map
      (fun p => p.2))⟩, ?_, rfl, rfl, rfl, rfl, rfl⟩
  simp [DojoWorld.model_metadata, hrow, DojoWorld.model_schema,
    Storage.queryModelMembers, hf, hhex, RR.bind, RR.ofExcept, RR.unwrapOpt,
    Except.mapError]

/-- C5 witness: pass-through evaluated on the stored "Position" row. -/
theorem C5_model_metadata_passthrough_witness :
    ∃ resp, exWorld.model_metadata "Position" = .ok resp ∧
      resp.packed_size = exModelRow.packed_size ∧
      resp.unpacked_size = exModelRow.unpacked_size ∧
      resp.name = exModelRow.name ∧ resp.class_hash = exModelRow.class_hash ∧
      resp.layout = [10, 11] :=
  C5_model_metadata_passthrough exWorld "Position" exModelRow [10, 11]
    (by decide) (by decide)

/-- C7: the metadata handlers leave the subscriber registry unchanged, and
their results do not depend on the registry at all: they read only through
the storage pool. -/
theorem C7_metadata_frame (s : ServerState) (reg : SubscriberManager)
    (model : String) :
    (world_metadata_call s).2.registry = s.registry ∧
    (model_metadata_call s model).2.registry = s.registry ∧
    (world_metadata_call ⟨s.world, reg⟩).1 = (world_metadata_call s).1 ∧
    (model_metadata_call ⟨s.world, reg⟩ model).1 = (model_metadata_call s model).1 :=
  ⟨rfl, rfl, rfl, rfl⟩

/-- C9: at the RPC boundary, every failure of the inner subscribe_entities —
whatever its kind — is surfaced with the Internal status code, the error's
display text being the only distinguishing signal. -/
theorem C9_subscribe_rpc_internal_only (w : DojoWorld) (sm : SubscriberManager)
    (queries : List EntityQuery) (e : Error)
    (h : (w.subscribe_entities sm queries).1 = .err e) :
    (w.subscribe_entities_rpc sm queries).1 =
      .err ⟨StatusCode.Internal, e.toMessage⟩ := by
  simp [DojoWorld.subscribe_entities_rpc, h, RR.mapErr, Status.internal]

/-- C9 witness: a subscription for a model with no storage row fails with
RowNotFound, surfaced as Internal (not NotFound) with the sqlx message. -/
theorem C9_subscribe_rpc_internal_only_witness :
    (exWorld.subscribe_entities exSM [missQuery]).1 = .err (.Sql .RowNotFound) ∧
    (exWorld.subscribe_entities_rpc exSM [missQuery]).1 =
      .err ⟨StatusCode.Internal,
        "no rows returned by a query that expected to return at least one row"⟩ :=
  ⟨by decide, C9_subscribe_rpc_internal_only exWorld exSM [missQuery]
    (.Sql .RowNotFound) (by decide)⟩

/-- C10: a query with no clause at all, and a query whose clause has no
clause_type, are treated exactly like a query with a non-keys clause: the
build step and the whole subscription call fail with UnsupportedQuery. -/
theorem C10_degenerate_clauses_unsupported (w : DojoWorld)
    (sm : SubscriberManager) (model : String) :
    buildRequest w ⟨model, none⟩ = .err .UnsupportedQuery ∧
    buildRequest w ⟨model, some ⟨none⟩⟩ = .err .UnsupportedQuery ∧
    buildRequest w ⟨model, some ⟨some .Attribute⟩⟩ = .err .UnsupportedQuery ∧
    buildRequest w ⟨model, some ⟨some .Composite⟩⟩ = .err .UnsupportedQuery ∧
    w.subscribe_entities sm [⟨model, none⟩] = (.err .UnsupportedQuery, sm) ∧
    w.subscribe_entities sm [⟨model, some ⟨none⟩⟩] = (.err .UnsupportedQuery, sm) ∧
    w.subscribe_entities sm [⟨model, some ⟨some .Attribute⟩⟩] =
      (.err .UnsupportedQuery, sm) :=
  ⟨rfl, rfl, rfl, rfl, rfl, rfl, rfl⟩

/-- C1: a notification produced by dispatch is delivered to a registered
subscriber iff at least one of the subscriber's stored entries has the
notification's model name and an empty key filter or a key filter equal to
the notification's entity key. -/
theorem C1_dispatch_delivers_iff (m : SubscriberManager) (s : Subscriber)
    (hs : s ∈ m.subscribers)
    (hnodup : (m.subscribers.map Subscriber.id).Nodup)
    (model : Nat) (key payload : List Nat) :
    (∃ d ∈ m.dispatch model key payload, d.1 = s.id) ↔
      ∃ e ∈ s.entries, entryMatches e model key = true := by
  constructor
  · rintro ⟨d, hd, hid⟩
    rw [SubscriberManager.dispatch, List.mem_filterMap] at hd
    obtain ⟨t, ht, hft⟩ := hd
    by_cases hmatch : t.entries.any (fun e => entryMatches e model key) = true
    · rw [if_pos hmatch] at hft
      have hdt : d = (t.id, ⟨model, key, payload⟩) := (Option.some.inj hft).symm
      have hts : t = s := by
        refine List.inj_on_of_nodup_map hnodup ht hs ?_
        rw [← hid, hdt]
      rw [hts] at hmatch
      simpa using List.any_eq_true.mp hmatch
    · rw [if_neg hmatch] at hft
      cases hft
  · rintro ⟨e, he, hm⟩
    refine ⟨(s.id, ⟨model, key, payload⟩), ?_, rfl⟩
    rw [SubscriberManager.dispatch, List.mem_filterMap]
    refine ⟨s, hs, ?_⟩
    rw [if_pos (List.any_eq_true.mpr ⟨e, he, hm⟩)]

/-- C1 witness: the single registered subscriber with filter keys [1, 2] for
the "Position" felt receives the matching notification. -/
theorem C1_dispatch_delivers_iff_witness :
    exSub1 ∈ exSM1.subscribers ∧
    (exSM1.subscribers.map Subscriber.id).Nodup ∧
    ((∃ d ∈ exSM1.dispatch 5795978142210944878 [1, 2] [7], d.1 = exSub1.id) ↔
      ∃ e ∈ exSub1.entries, entryMatches e 5795978142210944878 [1, 2] = true) :=
  ⟨by decide, by decide,
   C1_dispatch_delivers_iff exSM1 exSub1 (by decide) (by decide)
     5795978142210944878 [1, 2] [7]⟩

/-- If some query of the batch fails to build, the whole loop never
succeeds. -/
theorem buildAll_not_ok_of_mem_err (w : DojoWorld) :
    ∀ (queries : List EntityQuery),
      (∃ q ∈ queries, ∃ e, buildRequest w q = .err e) →
      ∀ subs, buildAll w queries ≠ .ok subs := by
  intro queries
  induction queries with
  | nil => intro h; simp at h
  | cons q rest ih =>
    intro h subs hok
    rw [buildAll] at hok
    obtain ⟨r, hbr, h2⟩ := RR.bind_ok_inv hok
    obtain ⟨rs, hrs, _⟩ := RR.bind_ok_inv h2
    obtain ⟨q', hq', e, he⟩ := h
    cases List.mem_cons.mp hq' with
    | inl heq =>
      rw [heq] at he
      rw [he] at hbr
      cases hbr
    | inr hmem => exact ih ⟨q', hmem, e, he⟩ rs hrs

/-- C3: if any query in the batch fails — missing clause, non-keys clause,
parse failure or storage failure — the whole subscribe_entities call fails
(no stream is opened) and the registry is left untouched (add_subscriber is
never reached). -/
theorem C3_subscribe_failure_aborts (w : DojoWorld) (sm : SubscriberManager)
    (queries : List EntityQuery)
    (h : ∃ q ∈ queries, ∃ e, buildRequest w q = .err e) :
    (w.subscribe_entities sm queries).1.isOk = false ∧
    (w.subscribe_entities sm queries).2 = sm := by
  have hno := buildAll_not_ok_of_mem_err w queries h
  cases hb : buildAll w queries with
  | ok subs => exact absurd hb (hno subs)
  | err e => simp [DojoWorld.subscribe_entities, hb, RR.isOk]
  | panic msg => simp [DojoWorld.subscribe_entities, hb, RR.isOk]

/-- C3 witness: a batch whose single query has no clause aborts the call and
leaves the registry empty. -/
theorem C3_subscribe_failure_aborts_witness :
    buildRequest exWorld ⟨"Position", none⟩ = .err .UnsupportedQuery ∧
    (exWorld.subscribe_entities exSM [⟨"Position", none⟩]).1.isOk = false ∧
    (exWorld.subscribe_entities exSM [⟨"Position", none⟩]).2 = exSM :=
  ⟨by decide,
   C3_subscribe_failure_aborts exWorld exSM [⟨"Position", none⟩]
     ⟨⟨"Position", none⟩, by decide, Error.UnsupportedQuery, by decide⟩⟩

/-- A successful query loop builds its requests pointwise in order. -/
theorem buildAll_ok_forall2 (w : DojoWorld) :
    ∀ (queries : List EntityQuery) (subs : List SubscribeRequest),
      buildAll w queries = .ok subs →
      List.Forall₂ (fun q r => buildRequest w q = .ok r) queries subs := by
  intro queries
  induction queries with
  | nil =>
    intro subs h
    rw [buildAll] at h
    cases h
    exact List.Forall₂.nil
  | cons q rest ih =>
    intro subs h
    rw [buildAll] at h
    obtain ⟨r, hr, h2⟩ := RR.bind_ok_inv h
    obtain ⟨rs, hrs, h3⟩ := RR.bind_ok_inv h2
    cases h3
    exact List.Forall₂.cons hr (ih rs hrs)

/-- A successfully built SubscribeRequest carries the felt encoding of the
query's model name and the packed size returned by model_metadata. -/
theorem buildRequest_ok_fields (w : DojoWorld) (q : EntityQuery)
    (r : SubscribeRequest) (h : buildRequest w q = .ok r) :
    ∃ name md, cairo_short_string_to_felt q.model = .ok name ∧
      w.model_metadata q.model = .ok md ∧
      r.model = ⟨name, md.packed_size⟩ := by
  rw [buildRequest] at h
  obtain ⟨pc, hpc, h2⟩ := RR.bind_ok_inv h
  obtain ⟨kc, hkc, h3⟩ := RR.bind_ok_inv h2
  obtain ⟨name, hname, h4⟩ := RR.bind_ok_inv h3
  obtain ⟨md, hmd, h5⟩ := RR.bind_ok_inv h4
  cases h5
  exact ⟨name, md, Except.mapError_ok_inv (RR.ofExcept_ok_inv hname), hmd, rfl⟩

/-- C4: a successful subscribe_entities call builds exactly one
SubscribeRequest per query, in query order, each carrying the model name's
felt encoding and the model's current packed_size, and registers the whole
batch under a single fresh subscriber id in one add_subscriber call. -/
theorem C4_subscribe_batch (w : DojoWorld) (sm : SubscriberManager)
    (queries : List EntityQuery) (subs : List SubscribeRequest)
    (h : buildAll w queries = .ok subs) :
    subs.length = queries.length ∧
    (∀ i (hq : i < queries.length) (hb : i < subs.length),
      buildRequest w (queries.get ⟨i, hq⟩) = .ok (subs.get ⟨i, hb⟩) ∧
      ∃ name md,
        cairo_short_string_to_felt (queries.get ⟨i, hq⟩).model = .ok name ∧
        w.model_metadata (queries.get ⟨i, hq⟩).model = .ok md ∧
        (subs.get ⟨i, hb⟩).model = ⟨name, md.packed_size⟩) ∧
    w.subscribe_entities sm queries =
      (.ok sm.next_id,
        ⟨sm.subscribers ++ [⟨sm.next_id, subs⟩], sm.next_id + 1⟩) := by
  have hf := buildAll_ok_forall2 w queries subs h
  refine ⟨hf.length_eq.symm, ?_, ?_⟩
  · intro i hq hb
    have hpt := (List.forall₂_iff_get.mp hf).2 i hq hb
    exact ⟨hpt, buildRequest_ok_fields w _ _ hpt⟩
  · simp [DojoWorld.subscribe_entities, h, SubscriberManager.add_subscriber]

/-- C4 witness: the one-query batch for "Position" builds one request with
the "Position" felt and packed size 4, registered under fresh id 0. -/
theorem C4_subscribe_batch_witness :
    buildAll exWorld [exQuery] = .ok [exSub] ∧
    exWorld.subscribe_entities exSM [exQuery] =
      (.ok exSM.next_id,
        ⟨exSM.subscribers ++ [⟨exSM.next_id, [exSub]⟩], exSM.next_id + 1⟩) :=
  ⟨by decide,
   (C4_subscribe_batch exWorld exSM [exQuery] [exSub] (by decide)).2.2⟩

/-- C6 counterexample: no non-emptiness validation exists — an empty query
batch is accepted, reaches add_subscriber, and registers a subscriber whose
stored request sequence is empty. -/
theorem C6_counterexample_empty_batch :
    (exWorld.subscribe_entities exSM []).1.isOk = true ∧
    (exWorld.subscribe_entities exSM []).2.subscribers =
      [⟨0, ([] : List SubscribeRequest)⟩] := by decide

/-- C6 amended: the façade performs no non-emptiness validation (an empty
batch reaches add_subscriber with an empty sequence); since exactly one
request is built per query, the submitted sequence is non-empty whenever the
query batch is non-empty. -/
theorem C6_amended_nonempty_from_queries (w : DojoWorld)
    (queries : List EntityQuery) (subs : List SubscribeRequest)
    (h : buildAll w queries = .ok subs) (hne : queries ≠ []) :
    subs ≠ [] := by
  have hlen := (buildAll_ok_forall2 w queries subs h).length_eq
  intro hnil
  rw [hnil] at hlen
  exact hne (List.eq_nil_of_length_eq_zero hlen)

/-- C6 witness: the non-empty one-query batch yields a non-empty submitted
sequence. -/
theorem C6_amended_nonempty_witness :
    buildAll exWorld [exQuery] = .ok [exSub] ∧
    ([exQuery] ≠ ([] : List EntityQuery)) ∧
    ([exSub] ≠ ([] : List SubscribeRequest)) :=
  ⟨by decide, by decide,
   C6_amended_nonempty_from_queries exWorld [exQuery] [exSub]
     (by decide) (by decide)⟩

/-- The model loop of `metadata` never recovers from a panic. -/
theorem metadataLoop_panic_absorb (w : DojoWorld) (msg : String) :
    ∀ (models : List ModelRow), w.metadataLoop (.panic msg) models = .panic msg := by
  intro models
  induction models with
  | nil => rfl
  | cons r rest ih =>
    have hstep : w.metadataStep (.panic msg) r = .panic msg := rfl
    calc w.metadataLoop (.panic msg) (r :: rest)
        = w.metadataLoop (w.metadataStep (.panic msg) r) rest := rfl
      _ = w.metadataLoop (.panic msg) rest := by rw [hstep]
      _ = .panic msg := ih

/-- Over a non-failing pool, the model loop succeeds on every prefix whose
rows all have well-formed hex layouts. -/
theorem metadataLoop_ok_of_layouts_ok (w : DojoWorld) (hf : w.pool.fail = none) :
    ∀ (pre : List ModelRow),
      (∀ r ∈ pre, ∃ b, hexDecode r.layout = some b) →
      ∀ acc, ∃ l, w.metadataLoop (.ok acc) pre = .ok l := by
  intro pre
  induction pre with
  | nil => exact fun _ acc => ⟨acc, rfl⟩
  | cons r rest ih =>
    intro hpre acc
    obtain ⟨b, hb⟩ := hpre r (List.mem_cons_self r rest)
    have hstep : w.metadataStep (.ok acc) r =
        .ok (acc ++ [ProtoModelMetadata.mk r.name r.class_hash r.packed_size
          r.unpacked_size b (serdeJsonToVec
            ((w.pool.model_members.filter (fun p => p.1 = r.name)).map
              (fun p => p.2)))]) := by
      simp [DojoWorld.metadataStep, DojoWorld.model_schema,
        Storage.queryModelMembers, hf, hb, RR.bind, RR.ofExcept, RR.unwrapOpt,
        Except.mapError]
    have hrw : w.metadataLoop (.ok acc) (r :: rest) =
        w.metadataLoop (w.metadataStep (.ok acc) r) rest := rfl
    rw [hrw, hstep]
    exact ih (fun x hx => hpre x (List.mem_cons_of_mem r hx)) _

/-- C8: a models row whose layout column is not valid hex makes both
model_metadata and (world) metadata panic on the layout unwrap; neither
operation surfaces the malformed layout as an Err return. -/
theorem C8_layout_unwrap_panics (w : DojoWorld) (model : String)
    (row : ModelRow) (pre post : List ModelRow) (wr : WorldRow)
    (hrow : w.pool.queryModelById model = .ok row)
    (hhex : hexDecode row.layout = none)
    (hworld : w.pool.queryWorld (formatHexId w.world_address) = .ok wr)
    (hsplit : w.pool.models = pre ++ row :: post)
    (hpre : ∀ r ∈ pre, ∃ b, hexDecode r.layout = some b) :
    (w.model_metadata model = .panic unwrapErrMsg ∧
      ∀ e, w.model_metadata model ≠ .err e) ∧
    (w.metadata = .panic unwrapErrMsg ∧ ∀ e, w.metadata ≠ .err e) := by
  have hf := queryModelById_ok_fail_none hrow
  have hmm : w.model_metadata model = .panic unwrapErrMsg := by
    simp [DojoWorld.model_metadata, hrow, DojoWorld.model_schema,
      Storage.queryModelMembers, hf, hhex, RR.bind, RR.ofExcept, RR.unwrapOpt,
      Except.mapError]
  have hloop : w.metadataLoop (.ok []) w.pool.models = .panic unwrapErrMsg := by
    obtain ⟨l, hl⟩ := metadataLoop_ok_of_layouts_ok w hf pre hpre []
    have hstep : w.metadataStep (.ok l) row = .panic unwrapErrMsg := by
      simp [DojoWorld.metadataStep, DojoWorld.model_schema,
        Storage.queryModelMembers, hf, hhex, RR.bind, RR.ofExcept,
        RR.unwrapOpt, Except.mapError]
    calc w.metadataLoop (.ok []) w.pool.models
        = w.metadataLoop (.ok []) (pre ++ row :: post) := by rw [hsplit]
      _ = w.metadataLoop (w.metadataLoop (.ok []) pre) (row :: post) := by
          rw [DojoWorld.metadataLoop, DojoWorld.metadataLoop, List.foldl_append]
          rfl
      _ = w.metadataLoop (.ok l) (row :: post) := by rw [hl]
      _ = w.metadataLoop (w.metadataStep (.ok l) row) post := rfl
      _ = w.metadataLoop (.panic unwrapErrMsg) post := by rw [hstep]
      _ = .panic unwrapErrMsg := metadataLoop_panic_absorb w unwrapErrMsg post
  have hmd : w.metadata = .panic unwrapErrMsg := by
    rw [DojoWorld.metadata, hworld]
    have hall : w.pool.queryModelsAll = .ok w.pool.models := by
      rw [Storage.queryModelsAll, hf]
    rw [hall]
    simp [RR.ofExcept, RR.bind, Except.mapError, hloop]
  refine ⟨⟨hmm, ?_⟩, hmd, ?_⟩
  · intro e he
    rw [hmm] at he
    cases he
  · intro e he
    rw [hmd] at he
    cases he

/-- C8 witness: the stored "Broken" row with layout "zz" makes both
operations panic. -/
theorem C8_layout_unwrap_panics_witness :
    hexDecode badModelRow.layout = none ∧
    badWorld.model_metadata "Broken" = .panic unwrapErrMsg ∧
    badWorld.metadata = .panic unwrapErrMsg := by
  have h := C8_layout_unwrap_panics badWorld "Broken" badModelRow [] []
    exWorldRow (by decide) (by decide) (by decide) (by decide)
    (by intro r hr; cases hr)
  exact ⟨by decide, h.1.1, h.2.1⟩

end Dojo
